import Mathlib

/-!
Shallow embedding of `tubular/jenkins.py` and `tubular/exception.py`.

Machine floats are modelled as exact real numbers; Python `int()` on a float
is truncation toward zero; the generator returned by `_backoff_timeout` is
modelled as the function from its call index (0-based) to the value yielded
at that call; the external `jenkinsapi` collaborator used by `trigger_build`
is modelled as an abstract environment of fallible steps, and Python
exception propagation as an `Except` computation.
-/

namespace Tubular

/-- Python `int()` applied to a real value: truncation toward zero. -/
noncomputable def pytrunc (x : ℝ) : ℤ :=
  if 0 ≤ x then ⌊x⌋ else ⌈x⌉

/-- From `_backoff_timeout` (jenkins.py line 55):
`tries = int(math.log(timeout * (base - 1) / factor + 1, base))`. -/
noncomputable def tries (timeout base factor : ℝ) : ℤ :=
  pytrunc (Real.logb base (timeout * (base - 1) / factor + 1))

/-- From `_backoff_timeout` (jenkins.py line 57):
`remainder = timeout - (factor * (base ** tries - 1)) / (base - 1)`. -/
noncomputable def remainder (timeout base factor : ℝ) : ℝ :=
  timeout - (factor * (base ^ tries timeout base factor - 1)) / (base - 1)

/-- The generator `expo` defined inside `_backoff_timeout`: its `n`-th yield
(0-based).  The Python generator keeps a counter that increments only while
it is below `tries`; so yield `n` is `factor * base ** n` for `n < tries`,
and every later yield is `remainder`. -/
noncomputable def expo (timeout base factor : ℝ) (n : ℕ) : ℝ :=
  if (n : ℤ) < tries timeout base factor then factor * base ^ n
  else remainder timeout base factor

/-- The `max_tries` component of the pair returned by `_backoff_timeout`:
`tries + 1` when `remainder == 0`, else `tries + 2` (jenkins.py lines 74-77). -/
noncomputable def max_tries (timeout base factor : ℝ) : ℤ :=
  if remainder timeout base factor = 0 then tries timeout base factor + 1
  else tries timeout base factor + 2

/-- The function `_backoff_timeout(timeout, base=2, factor=1)` returns the
pair `(wait_gen, max_tries)` (jenkins.py lines 27-77). -/
noncomputable def _backoff_timeout (timeout : ℝ) (base : ℝ := 2) (factor : ℝ := 1) :
    (ℕ → ℝ) × ℤ :=
  (expo timeout base factor, max_tries timeout base factor)

/-- Python exception values that can propagate out of the modelled code:
`BackendError` (tubular), `JenkinsAPIException` (jenkinsapi),
`requests.exceptions.HTTPError`, `TypeError`, `ImportError`, and a catch-all
for any other exception type raised by the collaborator. -/
inductive PyErr where
  | backendError (msg : String)
  | jenkinsAPIException (msg : String)
  | httpError (msg : String)
  | typeError (msg : String)
  | importError (msg : String)
  | otherExc (msg : String)
deriving DecidableEq

/-- The exception class names defined by the module `tubular/exception.py`
(its three `class ... (Exception)` statements). -/
def tubular_exception_defined_names : List String :=
  ["TimeoutException", "ImageNotFoundException", "MissingTagException"]

/-- Python `from <module> import <name>`: succeeds when the module defines
the name, otherwise raises `ImportError`. -/
def import_name_from (defined : List String) (name : String) : Except PyErr Unit :=
  if name ∈ defined then Except.ok ()
  else Except.error (PyErr.importError ("cannot import name " ++ name ++
    " from tubular.exception"))

/-- Loading `tubular.jenkins` executes
`from tubular.exception import BackendError` (jenkins.py line 12). -/
def load_tubular_jenkins : Except PyErr Unit :=
  import_name_from tubular_exception_defined_names ("BackendError")

/-- The message built by `trigger_build` when `jenkins.has_job(job_name)`
is false (jenkins.py lines 135-136). -/
def job_not_found_msg (job_name : String) : String :=
  "Job not found: " ++ job_name ++
    ". Verify that you have permissions for the job and double check the spelling of its name."

/-- The message raised by `_poll_giveup` (jenkins.py line 23). -/
def poll_giveup_msg (build_name : String) : String :=
  "Timed out waiting for build " ++ build_name ++ " to finish."

/-- The handler `_poll_giveup(data)` raises `BackendError` naming the
polled build (jenkins.py lines 17-24). -/
def _poll_giveup (build_name : String) : Except PyErr Unit :=
  Except.error (PyErr.backendError (poll_giveup_msg build_name))

/-- The external `jenkinsapi` collaborator, abstracted as the outcomes of
each call `trigger_build` makes into it: the `Jenkins(...)` constructor,
`has_job`, `job.invoke` (receiving the request parameters),
`queue_item.block_until_building`, `queue_item.get_build`, the polled
`build.is_running()` per attempt index, and `build.get_status()`. -/
structure JenkinsEnv where
  connect : Except PyErr Unit
  hasJob : Bool
  invoke : List (String × String) → Except PyErr Unit
  blockUntilBuilding : Except PyErr Unit
  getBuild : Except PyErr Unit
  buildName : String
  isRunning : ℕ → Bool
  getStatus : Except PyErr String

/-- Python dict insertion `d[k] = v` on an association list: overwrite the
binding for `k` if present, else append it. -/
def dict_insert (d : List (String × String)) (k v : String) :
    List (String × String) :=
  if d.any (fun p => p.1 = k) then
    d.map (fun p => if p.1 = k then (k, v) else p)
  else d ++ [(k, v)]

/-- The `request_params` dict built from `job_params`
(jenkins.py lines 124-126). -/
def request_params (ps : List (String × String)) : List (String × String) :=
  ps.foldl (fun d p => dict_insert d p.1 p.2) []

/-- The `try/except` around the `Jenkins(...)` constructor: only
`JenkinsAPIException` and `HTTPError` are caught and re-raised as
`BackendError(str(err))` (jenkins.py lines 129-132). -/
def catch_connect : Except PyErr Unit → Except PyErr Unit
  | Except.error (PyErr.jenkinsAPIException m) =>
      Except.error (PyErr.backendError m)
  | Except.error (PyErr.httpError m) => Except.error (PyErr.backendError m)
  | r => r

/-- The retry loop produced by `backoff.on_predicate(wait_gen,
max_tries=max_tries, on_giveup=_poll_giveup)` around
`poll_build_for_result`: at each attempt the predicate
`not build.is_running()` is evaluated; a truthy value stops the loop,
and once `max_tries` attempts have all been falsy the giveup handler
raises.  `fuel` is the number of attempts remaining, `k` the index of the
current attempt. -/
def poll_from (isRunning : ℕ → Bool) (build_name : String) :
    ℕ → ℕ → Except PyErr Unit
  | _, 0 => _poll_giveup build_name
  | k, fuel + 1 =>
      if isRunning k then poll_from isRunning build_name (k + 1) fuel
      else Except.ok ()

/-- The function `trigger_build(base_url, user_name, user_token, job_name,
job_token, job_cause=None, job_params=None, timeout=60*30)`
(jenkins.py lines 80-156), with the collaborator abstracted as `env`.  The schedule is computed first
(line 105, with the default `base=2, factor=1`); the `request_params` loop
(lines 124-126) iterates over `job_params`, raising `TypeError` when it is
`None`; the `Jenkins(...)` constructor is guarded by the only `try/except`;
`has_job` failure raises `BackendError`; the remaining collaborator calls
are unguarded, so their exceptions propagate unchanged; finally the build
is polled and its status returned. -/
noncomputable def trigger_build (env : JenkinsEnv) (job_name : String)
    (job_params : Option (List (String × String))) (timeout : ℝ) :
    Except PyErr String :=
  let mt := (max_tries timeout 2 1).toNat
  match job_params with
  | none => Except.error (PyErr.typeError ("NoneType object is not iterable"))
  | some ps =>
    match catch_connect env.connect with
    | Except.error e => Except.error e
    | Except.ok _ =>
      if env.hasJob = false then
        Except.error (PyErr.backendError (job_not_found_msg job_name))
      else
        match env.invoke (request_params ps) with
        | Except.error e => Except.error e
        | Except.ok _ =>
          match env.blockUntilBuilding with
          | Except.error e => Except.error e
          | Except.ok _ =>
            match env.getBuild with
            | Except.error e => Except.error e
            | Except.ok _ =>
              match poll_from env.isRunning env.buildName 0 mt with
              | Except.error e => Except.error e
              | Except.ok _ => env.getStatus

/-- A collaborator that behaves normally except that `job.invoke` raises
`JenkinsAPIException`. -/
def env_invoke_fails : JenkinsEnv where
  connect := Except.ok ()
  hasJob := true
  invoke := fun _ => Except.error (PyErr.jenkinsAPIException ("invoke failed"))
  blockUntilBuilding := Except.ok ()
  getBuild := Except.ok ()
  buildName := "build-42"
  isRunning := fun _ => false
  getStatus := Except.ok ("SUCCESS")

/-- A collaborator whose `Jenkins(...)` constructor raises
`JenkinsAPIException`. -/
def env_connect_fails : JenkinsEnv where
  connect := Except.error (PyErr.jenkinsAPIException ("conn refused"))
  hasJob := true
  invoke := fun _ => Except.ok ()
  blockUntilBuilding := Except.ok ()
  getBuild := Except.ok ()
  buildName := "build-42"
  isRunning := fun _ => false
  getStatus := Except.ok ("SUCCESS")

/-- A collaborator that does not have the requested job. -/
def env_no_job : JenkinsEnv where
  connect := Except.ok ()
  hasJob := false
  invoke := fun _ => Except.ok ()
  blockUntilBuilding := Except.ok ()
  getBuild := Except.ok ()
  buildName := "build-42"
  isRunning := fun _ => false
  getStatus := Except.ok ("SUCCESS")

/-- A collaborator whose build never stops running. -/
def env_always_running : JenkinsEnv where
  connect := Except.ok ()
  hasJob := true
  invoke := fun _ => Except.ok ()
  blockUntilBuilding := Except.ok ()
  getBuild := Except.ok ()
  buildName := "build-42"
  isRunning := fun _ => true
  getStatus := Except.ok ("SUCCESS")

section BackoffLemmas

variable {timeout base factor : ℝ}

/-- Under the contract hypotheses the argument of the logarithm is at least 1. -/
lemma one_le_logArg (h0 : 0 ≤ timeout) (hb : 1 < base) (hf : 0 < factor) :
    1 ≤ timeout * (base - 1) / factor + 1 := by
  have h1 : 0 ≤ timeout * (base - 1) / factor :=
    div_nonneg (mul_nonneg h0 (by linarith)) hf.le
  linarith

lemma logArg_pos (h0 : 0 ≤ timeout) (hb : 1 < base) (hf : 0 < factor) :
    0 < timeout * (base - 1) / factor + 1 :=
  lt_of_lt_of_le one_pos (one_le_logArg h0 hb hf)

/-- Since the log argument is ≥ 1 and the base exceeds 1, the log is
nonnegative and Python truncation toward zero coincides with the floor. -/
lemma tries_eq_floor (h0 : 0 ≤ timeout) (hb : 1 < base) (hf : 0 < factor) :
    tries timeout base factor =
      ⌊Real.logb base (timeout * (base - 1) / factor + 1)⌋ := by
  have hlog : 0 ≤ Real.logb base (timeout * (base - 1) / factor + 1) :=
    Real.logb_nonneg hb (one_le_logArg h0 hb hf)
  simp [tries, pytrunc, hlog]

lemma tries_nonneg (h0 : 0 ≤ timeout) (hb : 1 < base) (hf : 0 < factor) :
    0 ≤ tries timeout base factor := by
  rw [tries_eq_floor h0 hb hf]
  exact Int.floor_nonneg.mpr (Real.logb_nonneg hb (one_le_logArg h0 hb hf))

/-- An integer power of the base is bounded by the log argument exactly when
the exponent is at most `tries`. -/
lemma zpow_le_logArg_iff (h0 : 0 ≤ timeout) (hb : 1 < base) (hf : 0 < factor)
    (K : ℤ) :
    base ^ K ≤ timeout * (base - 1) / factor + 1 ↔ K ≤ tries timeout base factor := by
  rw [tries_eq_floor h0 hb hf, Int.le_floor,
    Real.le_logb_iff_rpow_le hb (logArg_pos h0 hb hf), Real.rpow_intCast]

/-- The cumulative exponential sum `factor*(base^K - 1)/(base - 1)` stays
within `timeout` exactly when `base ^ K` stays within the log argument. -/
lemma geomTotal_le_iff (h0 : 0 ≤ timeout) (hb : 1 < base) (hf : 0 < factor)
    (K : ℤ) :
    factor * (base ^ K - 1) / (base - 1) ≤ timeout ↔
      base ^ K ≤ timeout * (base - 1) / factor + 1 := by
  have hb1 : (0 : ℝ) < base - 1 := by linarith
  rw [div_le_iff₀ hb1]
  constructor
  · intro h
    have h2 : base ^ K - 1 ≤ timeout * (base - 1) / factor := by
      rw [le_div_iff₀ hf]
      nlinarith [h]
    linarith
  · intro h
    have h2 : base ^ K - 1 ≤ timeout * (base - 1) / factor := by linarith
    rw [le_div_iff₀ hf] at h2
    nlinarith [h2]

/-- The exponential sum of the first `tries` waits does not exceed `timeout`,
i.e. the remainder is nonnegative. -/
lemma remainder_nonneg (h0 : 0 ≤ timeout) (hb : 1 < base) (hf : 0 < factor) :
    0 ≤ remainder timeout base factor := by
  have h := (geomTotal_le_iff h0 hb hf (tries timeout base factor)).mpr
    ((zpow_le_logArg_iff h0 hb hf (tries timeout base factor)).mpr le_rfl)
  unfold remainder
  linarith

/-- Pinning down `tries` at a concrete input by sandwiching the log argument
between consecutive powers of the base. -/
lemma tries_eq_of_sandwich (h0 : 0 ≤ timeout) (hb : 1 < base) (hf : 0 < factor)
    (k : ℕ) (hlo : base ^ k ≤ timeout * (base - 1) / factor + 1)
    (hhi : timeout * (base - 1) / factor + 1 < base ^ (k + 1)) :
    tries timeout base factor = k := by
  rw [tries_eq_floor h0 hb hf]
  have hpos := logArg_pos h0 hb hf
  refine Int.floor_eq_iff.mpr ⟨?_, ?_⟩
  · rw [Real.le_logb_iff_rpow_le hb hpos]
    push_cast
    rw [Real.rpow_natCast]
    exact hlo
  · rw [Real.logb_lt_iff_lt_rpow hb hpos]
    have hcast : ((k : ℤ) : ℝ) + 1 = ((k + 1 : ℕ) : ℝ) := by push_cast; ring
    rw [hcast, Real.rpow_natCast]
    exact hhi

end BackoffLemmas

section Concrete

lemma expo_of_lt {timeout base factor : ℝ} {n : ℕ}
    (h : (n : ℤ) < tries timeout base factor) :
    expo timeout base factor n = factor * base ^ n := if_pos h

lemma expo_of_ge {timeout base factor : ℝ} {n : ℕ}
    (h : tries timeout base factor ≤ (n : ℤ)) :
    expo timeout base factor n = remainder timeout base factor :=
  if_neg (not_lt.mpr h)

lemma tries_seven : tries 7 2 1 = 3 :=
  tries_eq_of_sandwich (by norm_num) (by norm_num) (by norm_num) 3
    (by norm_num) (by norm_num)

lemma remainder_seven : remainder 7 2 1 = 0 := by
  rw [remainder, tries_seven]
  norm_num

lemma max_tries_seven : max_tries 7 2 1 = 4 := by
  rw [max_tries, if_pos remainder_seven, tries_seven]
  norm_num

lemma tries_ten : tries 10 2 1 = 3 :=
  tries_eq_of_sandwich (by norm_num) (by norm_num) (by norm_num) 3
    (by norm_num) (by norm_num)

lemma remainder_ten : remainder 10 2 1 = 3 := by
  rw [remainder, tries_ten]
  norm_num

lemma max_tries_ten : max_tries 10 2 1 = 5 := by
  rw [max_tries, if_neg (by rw [remainder_ten]; norm_num), tries_ten]
  norm_num

lemma tries_eighteen_hundred : tries 1800 2 1 = 10 :=
  tries_eq_of_sandwich (by norm_num) (by norm_num) (by norm_num) 10
    (by norm_num) (by norm_num)

lemma remainder_eighteen_hundred : remainder 1800 2 1 = 777 := by
  rw [remainder, tries_eighteen_hundred]
  norm_num

lemma max_tries_eighteen_hundred : max_tries 1800 2 1 = 12 := by
  rw [max_tries, if_neg (by rw [remainder_eighteen_hundred]; norm_num),
    tries_eighteen_hundred]
  norm_num

lemma tries_zero_timeout (base factor : ℝ) : tries 0 base factor = 0 := by
  simp [tries, pytrunc]

lemma remainder_zero_timeout (base factor : ℝ) : remainder 0 base factor = 0 := by
  simp [remainder, tries_zero_timeout]

end Concrete

section SumLemmas

variable {timeout base factor : ℝ}

/-- The geometric head of the wait sequence sums to `timeout - remainder`. -/
lemma sum_expo_tries (h0 : 0 ≤ timeout) (hb : 1 < base) (hf : 0 < factor) :
    ∑ k ∈ Finset.range (tries timeout base factor).toNat,
        expo timeout base factor k
      = timeout - remainder timeout base factor := by
  have hne : base ≠ 1 := ne_of_gt hb
  have hN : ((tries timeout base factor).toNat : ℤ) = tries timeout base factor :=
    Int.toNat_of_nonneg (tries_nonneg h0 hb hf)
  have hsum : ∑ k ∈ Finset.range (tries timeout base factor).toNat,
      expo timeout base factor k
      = ∑ k ∈ Finset.range (tries timeout base factor).toNat,
          factor * base ^ k := by
    refine Finset.sum_congr rfl ?_
    intro k hk
    have hk' := Finset.mem_range.mp hk
    exact expo_of_lt (by omega)
  rw [hsum, ← Finset.mul_sum, geom_sum_eq hne,
    ← zpow_natCast base (tries timeout base factor).toNat, hN, remainder]
  ring

end SumLemmas

section TriggerLemmas

/-- When the build reports running at every poll, the retry loop exhausts
any attempt budget and ends in the giveup handler. -/
lemma poll_from_all_running (isRunning : ℕ → Bool) (build_name : String)
    (h : ∀ k, isRunning k = true) :
    ∀ fuel k, poll_from isRunning build_name k fuel = _poll_giveup build_name := by
  intro fuel
  induction fuel with
  | zero => intro k; rfl
  | succ n ih =>
    intro k
    simp only [poll_from, h k, if_true]
    exact ih (k + 1)

end TriggerLemmas

/-- Claim C1: for every `timeout ≥ 0`, `base > 1`, `factor > 0`, if
`_backoff_timeout(timeout, base, factor)` returns `(wait_gen, max_tries)`,
then the sum of the first `max_tries - 1` values yielded by a fresh
`wait_gen()` producer equals `timeout` (exactly, in the exact-real model of
floats). -/
theorem claim_C1_sum_of_waits_eq_timeout (timeout base factor : ℝ)
    (h0 : 0 ≤ timeout) (hb : 1 < base) (hf : 0 < factor)
    (w : ℕ → ℝ) (m : ℤ)
    (hret : _backoff_timeout timeout base factor = (w, m)) :
    ∑ k ∈ Finset.range (m - 1).toNat, w k = timeout := by
  have hw : w = expo timeout base factor := (congrArg Prod.fst hret).symm
  have hm : m = max_tries timeout base factor := (congrArg Prod.snd hret).symm
  subst hw hm
  have htn := tries_nonneg h0 hb hf
  by_cases hr : remainder timeout base factor = 0
  · have hmt : max_tries timeout base factor = tries timeout base factor + 1 :=
      if_pos hr
    have hidx : (max_tries timeout base factor - 1).toNat =
        (tries timeout base factor).toNat := by
      rw [hmt]; omega
    rw [hidx, sum_expo_tries h0 hb hf, hr, sub_zero]
  · have hmt : max_tries timeout base factor = tries timeout base factor + 2 :=
      if_neg hr
    have hidx : (max_tries timeout base factor - 1).toNat =
        (tries timeout base factor).toNat + 1 := by
      rw [hmt]; omega
    have hlast : expo timeout base factor (tries timeout base factor).toNat =
        remainder timeout base factor :=
      expo_of_ge (le_of_eq (Int.toNat_of_nonneg htn).symm)
    rw [hidx, Finset.sum_range_succ, sum_expo_tries h0 hb hf, hlast]
    ring

/-- Witness for claim C1 at `timeout = 10`, `base = 2`, `factor = 1`. -/
theorem claim_C1_sum_of_waits_eq_timeout_witness :
    (0 : ℝ) ≤ 10 ∧ (1 : ℝ) < 2 ∧ (0 : ℝ) < 1 ∧
      ∑ k ∈ Finset.range ((max_tries 10 2 1 - 1).toNat), expo 10 2 1 k = 10 :=
  ⟨by norm_num, by norm_num, by norm_num,
    claim_C1_sum_of_waits_eq_timeout 10 2 1 (by norm_num) (by norm_num)
      (by norm_num) _ _ rfl⟩

/-- Claim C2: for every `timeout ≥ 0`, `base > 1`, `factor > 0`, the value
`tries` computed by `_backoff_timeout` equals
`floor(log_base(timeout*(base-1)/factor + 1))`, and `tries` is the largest
integer `K` such that the exponential sum `factor*(base^K - 1)/(base - 1)`
does not exceed `timeout` (stated as an equivalence); in the exact-real
model of floats the summed wait sequence then matches `timeout` with no
accumulated error. -/
theorem claim_C2_tries_is_floor_log (timeout base factor : ℝ)
    (h0 : 0 ≤ timeout) (hb : 1 < base) (hf : 0 < factor) :
    tries timeout base factor =
        ⌊Real.logb base (timeout * (base - 1) / factor + 1)⌋ ∧
      ∀ K : ℤ, factor * (base ^ K - 1) / (base - 1) ≤ timeout ↔
        K ≤ tries timeout base factor := by
  refine ⟨tries_eq_floor h0 hb hf, fun K => ?_⟩
  rw [geomTotal_le_iff h0 hb hf K, zpow_le_logArg_iff h0 hb hf K]

/-- Witness for claim C2 at `timeout = 10`, `base = 2`, `factor = 1`,
instantiating the characterisation at `K = 3`. -/
theorem claim_C2_tries_is_floor_log_witness :
    (0 : ℝ) ≤ 10 ∧ (1 : ℝ) < 2 ∧ (0 : ℝ) < 1 ∧
      tries 10 2 1 = ⌊Real.logb 2 (10 * (2 - 1) / 1 + 1)⌋ ∧
      (1 * ((2 : ℝ) ^ (3 : ℤ) - 1) / (2 - 1) ≤ 10 ↔ (3 : ℤ) ≤ tries 10 2 1) :=
  ⟨by norm_num, by norm_num, by norm_num,
    (claim_C2_tries_is_floor_log 10 2 1 (by norm_num) (by norm_num)
      (by norm_num)).1,
    (claim_C2_tries_is_floor_log 10 2 1 (by norm_num) (by norm_num)
      (by norm_num)).2 3⟩

/-- Claim C3: the module `tubular.exception` defines only
`TimeoutException`, `ImageNotFoundException` and `MissingTagException` and
no `BackendError`, so executing `from tubular.exception import BackendError`
while loading `tubular.jenkins` fails with an import error. -/
theorem claim_C3_backend_error_import_fails :
    tubular_exception_defined_names =
        ["TimeoutException", "ImageNotFoundException", "MissingTagException"] ∧
      "BackendError" ∉ tubular_exception_defined_names ∧
      load_tubular_jenkins = Except.error (PyErr.importError
        ("cannot import name BackendError from tubular.exception")) :=
  ⟨rfl, by decide, rfl⟩

/-- Claim C5 counterexample at `base = 2`, `factor = 1`, `timeout = 1800`:
`max_tries` is 12 (not about 13), so 11 waits are consumed, and from the
10th yield onward the producer repeats the remainder 777 after a largest
geometric wait of 512 — the value 2048 from the docstring table never
appears in the schedule. -/
theorem claim_C5_counterexample :
    max_tries 1800 2 1 = 12 ∧
      expo 1800 2 1 9 = 512 ∧ expo 1800 2 1 10 = 777 ∧
      expo 1800 2 1 11 = 777 ∧ expo 1800 2 1 12 = 777 := by
  refine ⟨max_tries_eighteen_hundred, ?_, ?_, ?_, ?_⟩
  · rw [expo_of_lt (by rw [tries_eighteen_hundred]; norm_num)]
    norm_num
  · rw [expo_of_ge (by rw [tries_eighteen_hundred]; norm_num)]
    exact remainder_eighteen_hundred
  · rw [expo_of_ge (by rw [tries_eighteen_hundred]; norm_num)]
    exact remainder_eighteen_hundred
  · rw [expo_of_ge (by rw [tries_eighteen_hundred]; norm_num)]
    exact remainder_eighteen_hundred

/-- Claim C5 amended: for `base = 2`, `factor = 1`, `timeout = 1800`,
`_backoff_timeout` computes `tries = 10` (geometric waits 1, 2, ..., 512
summing to 1023), remainder 777, and returns `max_tries = 12`; every yield
of the producer is `2 ^ n` for `n < 10` and 777 from the 10th on.  The
docstring table rows through 2048 at attempt 13 describe the uncapped
progression, not the schedule for `timeout = 1800`. -/
theorem claim_C5_amended_schedule_1800 :
    tries 1800 2 1 = 10 ∧ remainder 1800 2 1 = 777 ∧
      max_tries 1800 2 1 = 12 ∧
      ∀ n : ℕ, expo 1800 2 1 n = if n < 10 then 2 ^ n else 777 := by
  refine ⟨tries_eighteen_hundred, remainder_eighteen_hundred,
    max_tries_eighteen_hundred, fun n => ?_⟩
  by_cases h : n < 10
  · rw [expo_of_lt (by rw [tries_eighteen_hundred]; exact_mod_cast h),
      if_pos h, one_mul]
  · rw [expo_of_ge (by rw [tries_eighteen_hundred]; exact_mod_cast not_lt.mp h),
      if_neg h]
    exact remainder_eighteen_hundred

/-- Claim C6: for `base = 2`, `factor = 1`, `timeout = 7` (an exact
exponential sum), `_backoff_timeout` computes `tries = 3`, zero remainder,
returns `max_tries = 4`, and the first `max_tries - 1 = 3` yields are
exactly 1, 2, 4 with no remainder value among them. -/
theorem claim_C6_exact_sum_seven :
    tries 7 2 1 = 3 ∧ remainder 7 2 1 = 0 ∧ max_tries 7 2 1 = 4 ∧
      expo 7 2 1 0 = 1 ∧ expo 7 2 1 1 = 2 ∧ expo 7 2 1 2 = 4 := by
  refine ⟨tries_seven, remainder_seven, max_tries_seven, ?_, ?_, ?_⟩
  · rw [expo_of_lt (by rw [tries_seven]; norm_num)]
    norm_num
  · rw [expo_of_lt (by rw [tries_seven]; norm_num)]
    norm_num
  · rw [expo_of_lt (by rw [tries_seven]; norm_num)]
    norm_num

/-- Claim C7: for `base = 2`, `factor = 1`, `timeout = 10` (not an exact
exponential sum), `_backoff_timeout` computes `tries = 3` (progression
1, 2, 4 summing to 7) with remainder 3, returns `max_tries = 5`, and the
fourth yield of the producer is the remainder 3. -/
theorem claim_C7_remainder_ten :
    tries 10 2 1 = 3 ∧ remainder 10 2 1 = 3 ∧ max_tries 10 2 1 = 5 ∧
      expo 10 2 1 0 = 1 ∧ expo 10 2 1 1 = 2 ∧ expo 10 2 1 2 = 4 ∧
      expo 10 2 1 3 = 3 := by
  refine ⟨tries_ten, remainder_ten, max_tries_ten, ?_, ?_, ?_, ?_⟩
  · rw [expo_of_lt (by rw [tries_ten]; norm_num)]
    norm_num
  · rw [expo_of_lt (by rw [tries_ten]; norm_num)]
    norm_num
  · rw [expo_of_lt (by rw [tries_ten]; norm_num)]
    norm_num
  · rw [expo_of_ge (by rw [tries_ten]; norm_num)]
    exact remainder_ten

/-- Claim C8: for `timeout = 0` and any `base > 1`, `factor > 0`,
`_backoff_timeout` computes zero tries and zero remainder and returns
`max_tries = 1`, so the polling loop makes a single immediate attempt. -/
theorem claim_C8_zero_timeout (base factor : ℝ) (hb : 1 < base)
    (hf : 0 < factor) : max_tries 0 base factor = 1 := by
  rw [max_tries, if_pos (remainder_zero_timeout base factor),
    tries_zero_timeout]
  norm_num

/-- Witness for claim C8 at `base = 2`, `factor = 1`. -/
theorem claim_C8_zero_timeout_witness :
    (1 : ℝ) < 2 ∧ (0 : ℝ) < 1 ∧ max_tries 0 2 1 = 1 :=
  ⟨by norm_num, by norm_num,
    claim_C8_zero_timeout 2 1 (by norm_num) (by norm_num)⟩

/-- Claim C4 counterexample: a `JenkinsAPIException` raised by
`job.invoke` escapes `trigger_build` unchanged — an exception type other
than `BackendError` escapes the job-invocation step, because only the
`Jenkins(...)` constructor is inside a `try/except`. -/
theorem claim_C4_counterexample :
    trigger_build env_invoke_fails ("some-job") (some []) 7 =
      Except.error (PyErr.jenkinsAPIException ("invoke failed")) := rfl

/-- Claim C4 amended: failures raised by the `Jenkins(...)`
constructor of kinds `JenkinsAPIException` and `HTTPError` are caught and
re-raised as `BackendError` with the original message, a missing job and
an exhausted poll budget raise `BackendError`, and none of these paths is
retried; but failures from the unguarded collaborator calls (job
invocation, and likewise queue wait and build retrieval) propagate
unchanged rather than being re-raised as `BackendError`. -/
theorem claim_C4_error_boundary (env : JenkinsEnv) (job_name : String)
    (ps : List (String × String)) (t : ℝ) :
    (∀ m, env.connect = Except.error (PyErr.jenkinsAPIException m) →
        trigger_build env job_name (some ps) t =
          Except.error (PyErr.backendError m)) ∧
    (∀ m, env.connect = Except.error (PyErr.httpError m) →
        trigger_build env job_name (some ps) t =
          Except.error (PyErr.backendError m)) ∧
    (env.connect = Except.ok () → env.hasJob = false →
        trigger_build env job_name (some ps) t =
          Except.error (PyErr.backendError (job_not_found_msg job_name))) ∧
    (env.connect = Except.ok () → env.hasJob = true →
        env.invoke (request_params ps) = Except.ok () →
        env.blockUntilBuilding = Except.ok () →
        env.getBuild = Except.ok () →
        (∀ k, env.isRunning k = true) →
        trigger_build env job_name (some ps) t =
          Except.error (PyErr.backendError (poll_giveup_msg env.buildName))) ∧
    (∀ e, env.connect = Except.ok () → env.hasJob = true →
        env.invoke (request_params ps) = Except.error e →
        trigger_build env job_name (some ps) t = Except.error e) := by
  refine ⟨?_, ?_, ?_, ?_, ?_⟩
  · intro m hc
    simp [trigger_build, hc, catch_connect]
  · intro m hc
    simp [trigger_build, hc, catch_connect]
  · intro hc hj
    simp [trigger_build, hc, catch_connect, hj]
  · intro hc hj hin hbl hgb hrun
    simp [trigger_build, hc, catch_connect, hj, hin, hbl, hgb,
      poll_from_all_running env.isRunning env.buildName hrun, _poll_giveup]
  · intro e hc hj hin
    simp [trigger_build, hc, catch_connect, hj, hin]

/-- Witness for the amended claim C4: a constructor failure of kind
`JenkinsAPIException` is re-raised as `BackendError` with the same
message. -/
theorem claim_C4_error_boundary_witness :
    env_connect_fails.connect =
        Except.error (PyErr.jenkinsAPIException ("conn refused")) ∧
      trigger_build env_connect_fails ("some-job") (some []) 7 =
        Except.error (PyErr.backendError ("conn refused")) :=
  ⟨rfl, (claim_C4_error_boundary env_connect_fails ("some-job") [] 7).1
    ("conn refused") rfl⟩

/-- Claim C9: when the named job does not exist, `trigger_build` raises a
`BackendError` whose message contains the job name; when the attempt budget
is exhausted while the build is still running, it raises (via
`_poll_giveup`) a `BackendError` whose message contains the build name. -/
theorem claim_C9_error_message_names (env : JenkinsEnv) (job_name : String)
    (ps : List (String × String)) (t : ℝ) :
    (env.connect = Except.ok () → env.hasJob = false →
        trigger_build env job_name (some ps) t =
            Except.error (PyErr.backendError (job_not_found_msg job_name)) ∧
          job_name.data <:+: (job_not_found_msg job_name).data) ∧
    (env.connect = Except.ok () → env.hasJob = true →
        env.invoke (request_params ps) = Except.ok () →
        env.blockUntilBuilding = Except.ok () →
        env.getBuild = Except.ok () →
        (∀ k, env.isRunning k = true) →
        trigger_build env job_name (some ps) t =
            Except.error (PyErr.backendError (poll_giveup_msg env.buildName)) ∧
          env.buildName.data <:+: (poll_giveup_msg env.buildName).data) := by
  constructor
  · intro hc hj
    refine ⟨by simp [trigger_build, hc, catch_connect, hj], ?_⟩
    exact ⟨("Job not found: ").data,
      (". Verify that you have permissions for the job and double check the spelling of its name.").data,
      by simp [job_not_found_msg]⟩
  · intro hc hj hin hbl hgb hrun
    refine ⟨by simp [trigger_build, hc, catch_connect, hj, hin, hbl, hgb,
      poll_from_all_running env.isRunning env.buildName hrun, _poll_giveup], ?_⟩
    exact ⟨("Timed out waiting for build ").data, (" to finish.").data,
      by simp [poll_giveup_msg]⟩

/-- Witness for claim C9: the two message properties at concrete
collaborators, for a missing job and for a never-finishing build. -/
theorem claim_C9_error_message_names_witness :
    (trigger_build env_no_job ("deploy-job") (some []) 7 =
        Except.error (PyErr.backendError (job_not_found_msg ("deploy-job"))) ∧
      ("deploy-job").data <:+: (job_not_found_msg ("deploy-job")).data) ∧
    (trigger_build env_always_running ("deploy-job") (some []) 7 =
        Except.error (PyErr.backendError (poll_giveup_msg ("build-42"))) ∧
      ("build-42").data <:+: (poll_giveup_msg ("build-42")).data) :=
  ⟨(claim_C9_error_message_names env_no_job ("deploy-job") [] 7).1 rfl rfl,
    (claim_C9_error_message_names env_always_running ("deploy-job") [] 7).2
      rfl rfl rfl rfl rfl (fun _ => rfl)⟩

/-- Claim C10: when `job_params` is left at its default `None`,
`trigger_build` raises `TypeError` from iterating over `None`, whatever the
collaborator would do — in particular before any connection is attempted
and without raising `BackendError`. -/
theorem claim_C10_none_params_type_error (env : JenkinsEnv)
    (job_name : String) (t : ℝ) :
    trigger_build env job_name none t =
      Except.error (PyErr.typeError ("NoneType object is not iterable")) := rfl

end Tubular






